import Mathlib

/-!
Verification of the task/agent orchestration engine of the Catbird repository
(`src/copilot-runner.py` and `src/parallel-agents.py`), shallowly embedded in
Lean 4.  The external process call is abstracted by its observable outcome
(`ProcOutcome`); everything downstream of that outcome — status classification,
result collection into Python dicts, sequential/parallel scheduling, summary
generation and exit codes — is translated directly from the source.
-/

/-- Observable outcome of one `subprocess.run` call: the process exited with a
code and produced stdout/stderr, the call raised `subprocess.TimeoutExpired`,
or it raised some other exception (spawn / OS-level failure) with a message. -/
inductive ProcOutcome where
  | exited (code : Int) (out err : String)
  | timedOut
  | spawnError (msg : String)
deriving DecidableEq, Repr

/-- Structure `CopilotTask` from `copilot-runner.py` (lines 34-52): plain record of the
constructor's five fields. -/
structure CopilotTask where
  name : String
  prompt : String
  approval : String
  timeout : Int
  description : String
deriving DecidableEq, Repr

/-- Constructor `CopilotTask.__init__` (`copilot-runner.py` lines 37-43).  It assigns the
arguments unchanged, except `self.description = description or prompt`
(Python `or`: an empty string falls back to the prompt).  There is no
validation of any field. -/
def CopilotTask.init (name prompt approval : String) (timeout : Int)
    (description : String) : CopilotTask :=
  { name := name, prompt := prompt, approval := approval, timeout := timeout,
    description := if description = "" then prompt else description }

/-- One entry of the `tasks` mapping in a task document, as read by
`load_tasks_from_file` (`copilot-runner.py` lines 210-219): every key but
`prompt` is accessed with `.get` and a default; `task_data['prompt']` raises
`KeyError` when absent. -/
structure TaskData where
  name : Option String
  prompt : Option String
  approval : Option String
  timeout : Option Int
  description : Option String
deriving DecidableEq, Repr

/-- The task built by `load_tasks_from_file` for one `task_id`/`task_data`
pair (`copilot-runner.py` lines 212-219); `none` models the `KeyError` raised
by `task_data['prompt']` when the `prompt` key is missing. -/
def loadTask (taskId : String) (d : TaskData) : Option CopilotTask :=
  d.prompt.map fun p =>
    CopilotTask.init (d.name.getD taskId) p (d.approval.getD "--allow-all-tools")
      (d.timeout.getD 120) (d.description.getD "")

/-- Structure `Agent` from `parallel-agents.py` (lines 29-43): the fields that determine
its command line and logs. -/
structure Agent where
  agentId : Nat
  name : String
  task : String
  approval : String
deriving DecidableEq, Repr

/-- Helper for `splitWs`: walk the characters, accumulating the current word
(reversed); whitespace ends a word, empty pieces are discarded. -/
def splitWsAux : List Char → List Char → List String
  | [], cur => if cur = [] then [] else [String.mk cur.reverse]
  | c :: cs, cur =>
      if c.isWhitespace then
        (if cur = [] then splitWsAux cs []
         else String.mk cur.reverse :: splitWsAux cs [])
      else splitWsAux cs (c :: cur)

/-- Python `str.split()` with no argument: split on runs of whitespace,
discarding empty pieces. -/
def splitWs (s : String) : List String := splitWsAux s.toList []

/-- The command line built by `Agent.run` (`parallel-agents.py` lines 49-63):
`["copilot", "-p", task, "--allow-all-paths"]`, then, when `approval` is
non-empty, either the whole `approval` string as one token (when it starts
with `--`) or its whitespace-split parts. -/
def buildAgentCmd (a : Agent) : List String :=
  ["copilot", "-p", a.task, "--allow-all-paths"] ++
    (if a.approval ≠ "" then
      (if a.approval.startsWith "--" then [a.approval] else splitWs a.approval)
    else [])

/-- The command line built by `TaskRunner.run_task` (`copilot-runner.py`
lines 87-91): `["copilot", "-p", prompt]` extended with
`task.approval.split()`. -/
def buildRunnerCmd (t : CopilotTask) : List String :=
  ["copilot", "-p", t.prompt] ++ splitWs t.approval

/-- The `status` string `Agent.run` leaves on the agent
(`parallel-agents.py` lines 94-95, 100, 111): `"completed"` iff the exit code
is 0, `"failed"` for a nonzero exit, `"timeout"` on `TimeoutExpired`,
`"error"` on any other exception. -/
def agentStatus (o : ProcOutcome) : String :=
  match o with
  | .exited code _ _ => if code = 0 then "completed" else "failed"
  | .timedOut => "timeout"
  | .spawnError _ => "error"

/-- The `(success, stdout, stderr)` triple returned by `TaskRunner.run_task`
(`copilot-runner.py` lines 113-143): success iff exit code 0; on timeout or
exception, success is `False` and stderr carries the error message. -/
def runTaskResult (t : CopilotTask) (o : ProcOutcome) : Bool × String × String :=
  match o with
  | .exited code out err => (code = 0, out, err)
  | .timedOut => (false, "", "Task timed out after " ++ toString t.timeout ++ " seconds")
  | .spawnError m => (false, "", m)

/-- How `subprocess.run` is configured for one external call: whether stdin is
redirected to `/dev/null`, and the working directory passed as `cwd` (if any).
Both engines set `capture_output=True`. -/
structure SpawnConfig where
  stdinDisabled : Bool
  cwd : Option String
  captureOutput : Bool
deriving DecidableEq, Repr

/-- The `subprocess.run` keyword arguments in `Agent.run`
(`parallel-agents.py` lines 68-75): `stdin=subprocess.DEVNULL` and
`cwd=self.workspace`. -/
def agentSpawnConfig (workspace : String) : SpawnConfig :=
  { stdinDisabled := true, cwd := some workspace, captureOutput := true }

/-- The `subprocess.run` keyword arguments in `TaskRunner.run_task`
(`copilot-runner.py` lines 95-100): only `capture_output`, `text` and
`timeout` are passed — stdin is inherited and no `cwd` is given. -/
def runnerSpawnConfig : SpawnConfig :=
  { stdinDisabled := false, cwd := none, captureOutput := true }

/-- The timeout `TaskRunner.run_task` passes to `subprocess.run`
(`copilot-runner.py` line 99): the task's own `timeout` field. -/
def runnerEnforcedTimeout (t : CopilotTask) : Int := t.timeout

/-- The timeout `Agent.run` passes to `subprocess.run`
(`parallel-agents.py` line 73): the literal `900` — agents carry no
per-agent timeout field. -/
def agentEnforcedTimeout : Int := 900

/-- The lines `TaskRunner.run_task` writes to the per-task log file
(`copilot-runner.py` lines 102-111, 129-131, 139-141), with the wall-clock
timestamp abstracted as `now`.  Exactly one `with open(task_log, 'w')` block
runs on each path; the three paths write different contents. -/
def runnerTaskLog (t : CopilotTask) (now : String) (o : ProcOutcome) : List String :=
  match o with
  | .exited code out err =>
      ["Task: " ++ t.name, "Prompt: " ++ t.prompt, "Timestamp: " ++ now,
       "Exit Code: " ++ toString code, "=== STDOUT ===", out, "=== STDERR ===", err]
  | .timedOut =>
      ["Task: " ++ t.name,
       "Error: Task timed out after " ++ toString t.timeout ++ " seconds"]
  | .spawnError m =>
      ["Task: " ++ t.name, "Exception: " ++ m]

/-- The lines `Agent.run` writes to the agent's log file
(`parallel-agents.py` lines 81-92, 103-105, 114-116), with timestamps and the
formatted duration abstracted as `startISO`, `endISO`, `dur`. -/
def agentLog (a : Agent) (startISO endISO dur : String) (o : ProcOutcome) : List String :=
  match o with
  | .exited code out err =>
      (["Agent: " ++ a.name ++ " (ID: " ++ toString a.agentId ++ ")",
        "Task: " ++ a.task, "Start: " ++ startISO, "End: " ++ endISO,
        "Duration: " ++ dur, "Exit Code: " ++ toString code,
        "=== OUTPUT ===", out] ++
       (if err ≠ "" then ["=== ERRORS ===", err] else []))
  | .timedOut =>
      ["Agent: " ++ a.name ++ " (ID: " ++ toString a.agentId ++ ")",
       "Status: TIMEOUT"]
  | .spawnError m =>
      ["Agent: " ++ a.name ++ " (ID: " ++ toString a.agentId ++ ")",
       "Error: " ++ m]

/-- A concrete task used to instantiate hypotheses of the theorems below. -/
def sampleTask : CopilotTask :=
  { name := "t1", prompt := "p", approval := "--allow-all-tools",
    timeout := 120, description := "p" }

/-! ## The result map

Both schedulers accumulate outcomes into a Python `dict` keyed by the task's
or agent's `name` (`results[task.name] = success`, `copilot-runner.py`
lines 159, 182; `results[agent.name] = success`, `parallel-agents.py`
line 173).  A Python dict is modelled as an association list in insertion
order: assigning to an existing key overwrites its value in place, assigning
a fresh key appends. -/

/-- Association list in insertion order standing for a Python dict
`name → success`. -/
abbrev ResultsMap := List (String × Bool)

/-- The keys of a results map, in insertion order. -/
def rmKeys (m : ResultsMap) : List String := m.map Prod.fst

/-- Python `results[k] = v`: overwrite in place when `k` is present, append
otherwise. -/
def setResult (m : ResultsMap) (kv : String × Bool) : ResultsMap :=
  if (rmKeys m).contains kv.1 then
    m.map (fun p => if p.1 = kv.1 then (p.1, kv.2) else p)
  else m ++ [kv]

/-- Python `results.get(k)`: the value stored under `k`, if any. -/
def getResult (m : ResultsMap) (k : String) : Option Bool :=
  match m with
  | [] => none
  | p :: rest => if p.1 = k then some p.2 else getResult rest k

/-- The result dict built by the parallel collection loop
(`copilot-runner.py` lines 149-162, `parallel-agents.py` lines 163-184):
starting from `{}`, each task is recorded as it completes, so the argument is
the list of `(name, success)` pairs in **completion order** — some
permutation of the dispatched tasks. -/
def collectResults (completions : List (String × Bool)) : ResultsMap :=
  completions.foldl setResult []

/-- Loop body of `TaskRunner.run_sequential` (`copilot-runner.py`
lines 179-186) over the remaining tasks, carrying the dict built so far:
record the task's result, then `break` when it failed and `stop_on_failure`
is set. -/
def runSequentialAux (m : ResultsMap) (tasks : List (String × Bool))
    (stopOnFailure : Bool) : ResultsMap :=
  match tasks with
  | [] => m
  | t :: rest =>
      let m' := setResult m t
      if ¬ t.2 ∧ stopOnFailure then m'
      else runSequentialAux m' rest stopOnFailure

/-- Scheduler `TaskRunner.run_sequential` (`copilot-runner.py` lines 175-197), with each
task abstracted to its name and the success bit `run_task` returns for it. -/
def runSequential (tasks : List (String × Bool)) (stopOnFailure : Bool) : ResultsMap :=
  runSequentialAux [] tasks stopOnFailure

/-- The count `successes = sum(1 for v in results.values() if v)`
(`copilot-runner.py` line 165/189, `parallel-agents.py` line 192). -/
def successCount (m : ResultsMap) : Nat := (m.filter (fun p => p.2)).length

/-- The summary document persisted by `AgentSwarm._generate_summary`
(`parallel-agents.py` lines 196-212), restricted to its counts:
`total_agents = len(self.agents)`, `successful = successes`,
`failed = len(results) - successes`. -/
structure RunSummary where
  totalAgents : Nat
  successful : Nat
  failed : Nat
deriving DecidableEq, Repr

/-- Function `AgentSwarm._generate_summary` (`parallel-agents.py` lines 190-215):
`numAgents` is `len(self.agents)`, `results` the dict handed over by
`execute`. -/
def generateSummary (numAgents : Nat) (results : ResultsMap) : RunSummary :=
  { totalAgents := numAgents,
    successful := successCount results,
    failed := results.length - successCount results }

/-- Predicate `all(results.values())`, the aggregate success predicate used for the
process exit code (`copilot-runner.py` line 320, `parallel-agents.py`
lines 287/301/335); `True` on an empty dict. -/
def overallSuccess (m : ResultsMap) : Bool := m.all (fun p => p.2)

/-- Exit code `sys.exit(0 if all(results.values()) else 1)`. -/
def processExitCode (m : ResultsMap) : Nat := if overallSuccess m then 0 else 1

/-! ## Helper lemmas about the result map -/

/-- Assigning a fresh key appends it. -/
theorem setResult_fresh (m : ResultsMap) (kv : String × Bool)
    (h : kv.1 ∉ rmKeys m) : setResult m kv = m ++ [kv] := by
  unfold setResult
  rw [if_neg]
  simpa [List.contains_iff_exists_mem_beq] using h

/-- Folding assignment over entries whose keys are all fresh and mutually
distinct just appends them in order. -/
theorem foldl_setResult_of_nodup (l : List (String × Bool)) :
    ∀ acc : ResultsMap, (rmKeys (acc ++ l)).Nodup →
      l.foldl setResult acc = acc ++ l := by
  induction l with
  | nil => intro acc _; simp
  | cons t rest ih =>
      intro acc hnd
      have hfresh : t.1 ∉ rmKeys acc := by
        intro hmem
        have : t.1 ∈ rmKeys (t :: rest) := by simp [rmKeys]
        have hd := (List.nodup_append.mp (by simpa [rmKeys] using hnd)).2.2
        exact hd hmem this
      have hstep : setResult acc t = acc ++ [t] := setResult_fresh acc t hfresh
      have hnd' : (rmKeys ((acc ++ [t]) ++ rest)).Nodup := by
        simpa [rmKeys, List.append_assoc] using hnd
      calc (t :: rest).foldl setResult acc
          = rest.foldl setResult (setResult acc t) := by simp [List.foldl_cons]
        _ = rest.foldl setResult (acc ++ [t]) := by rw [hstep]
        _ = (acc ++ [t]) ++ rest := ih (acc ++ [t]) hnd'
        _ = acc ++ t :: rest := by simp

/-- With pairwise-distinct names, collecting in any order is the identity on
the completion list. -/
theorem collectResults_of_nodup (l : List (String × Bool))
    (h : (rmKeys l).Nodup) : collectResults l = l := by
  have := foldl_setResult_of_nodup l [] (by simpa using h)
  simpa [collectResults] using this

/-! ## Claim theorems -/

/-- C4: for every executed agent, the outcome is classified as status
`completed` exactly when the external process exits with code 0, `failed`
exactly when it exits nonzero, `timeout` exactly on `TimeoutExpired`, and
`error` (distinct from `failed` and `timeout`) exactly when the process could
not be spawned or an OS-level failure occurred. -/
theorem agent_status_classification (o : ProcOutcome) :
    (agentStatus o = "completed" ↔ ∃ out err, o = .exited 0 out err) ∧
    (agentStatus o = "failed" ↔ ∃ code out err, o = .exited code out err ∧ code ≠ 0) ∧
    (agentStatus o = "timeout" ↔ o = .timedOut) ∧
    (agentStatus o = "error" ↔ ∃ msg, o = .spawnError msg) := by
  cases o with
  | exited code out err =>
      by_cases h : code = 0
      · subst h
        refine ⟨?_, ?_, ?_, ?_⟩ <;> simp [agentStatus]
      · refine ⟨?_, ?_, ?_, ?_⟩ <;> simp [agentStatus, h]
  | timedOut => refine ⟨?_, ?_, ?_, ?_⟩ <;> simp [agentStatus]
  | spawnError m => refine ⟨?_, ?_, ?_, ?_⟩ <;> simp [agentStatus]

/-- C5 (amended): `CopilotTask` construction performs no validation at all —
any prompt (including the empty string) and any timeout (including
non-positive values) are stored unchanged, and loading a task from a file
fails exactly when the `prompt` key is absent (a `KeyError`, not a
`ValidationError`). -/
theorem task_construction_no_validation (taskId name prompt approval descr : String)
    (timeout : Int) (d : TaskData) :
    (CopilotTask.init name prompt approval timeout descr).prompt = prompt ∧
    (CopilotTask.init name prompt approval timeout descr).timeout = timeout ∧
    ((loadTask taskId d).isSome ↔ d.prompt.isSome) := by
  refine ⟨rfl, rfl, ?_⟩
  cases hp : d.prompt <;> simp [loadTask, hp]

/-- C5 counterexample: a task with an empty prompt and timeout `0` is
constructed and loaded successfully — no ValidationError exists on this path,
contradicting the claim that construction fails for these inputs. -/
theorem task_empty_prompt_zero_timeout_accepted :
    loadTask "t" { name := none, prompt := some "", approval := none,
                   timeout := some 0, description := none } =
      some { name := "t", prompt := "", approval := "--allow-all-tools",
             timeout := 0, description := "" } := by
  simp [loadTask, CopilotTask.init]

/-- C8 (amended): only the agent-swarm engine (`Agent.run`) spawns the
external process with stdin redirected to `/dev/null` and the working
directory set to the caller-specified workspace; the task-runner engine
(`TaskRunner.run_task`) passes neither — stdin and the working directory are
inherited. -/
theorem spawn_config_by_engine (workspace : String) :
    (agentSpawnConfig workspace).stdinDisabled = true ∧
    (agentSpawnConfig workspace).cwd = some workspace ∧
    runnerSpawnConfig.stdinDisabled = false ∧
    runnerSpawnConfig.cwd = none :=
  ⟨rfl, rfl, rfl, rfl⟩

/-- C8 counterexample: the `TaskRunner.run_task` spawn leaves the input
stream enabled and sets no working directory, contradicting the claim that
the Execution Engine disables stdin and sets the workspace cwd. -/
theorem runner_spawn_inherits_stdin_and_cwd :
    runnerSpawnConfig.stdinDisabled = false ∧ runnerSpawnConfig.cwd = none :=
  ⟨rfl, rfl⟩

/-- C10: the command line built by `Agent.run` always places
`--allow-all-paths` immediately after the prompt, regardless of the approval
policy, and appends the approval flags after it — nothing for an empty
policy, the whole policy as a single token when it starts with `--`, its
whitespace-split parts otherwise. -/
theorem agent_cmd_structure (a : Agent) :
    (buildAgentCmd a).take 4 = ["copilot", "-p", a.task, "--allow-all-paths"] ∧
    (buildAgentCmd a).drop 4 =
      (if a.approval = "" then []
       else if a.approval.startsWith "--" then [a.approval]
       else splitWs a.approval) := by
  by_cases h : a.approval = "" <;> simp [buildAgentCmd, h]

/-- C6 (amended): the task runner enforces each task's own configured timeout
(the loader defaults it to 120 seconds when the document omits it), and a
timed-out task never gets a successful result; the agent swarm instead
enforces a fixed 900-second timeout for every agent — agents carry no
per-agent timeout field, so the claimed 120-second default does not apply —
and a timed-out agent is classified `timeout`, never `completed`. -/
theorem timeout_enforcement (t : CopilotTask) (taskId : String) (d : TaskData)
    (p : String) (hp : d.prompt = some p) (hto : d.timeout = none) :
    runnerEnforcedTimeout t = t.timeout ∧
    (∃ tk, loadTask taskId d = some tk ∧ tk.timeout = 120) ∧
    (runTaskResult t .timedOut).1 = false ∧
    agentStatus .timedOut = "timeout" ∧
    agentStatus .timedOut ≠ "completed" ∧
    agentEnforcedTimeout = 900 := by
  have hload : loadTask taskId d =
      some (CopilotTask.init (d.name.getD taskId) p
        (d.approval.getD "--allow-all-tools") 120 (d.description.getD "")) := by
    simp [loadTask, hp, hto]
  exact ⟨rfl, ⟨_, hload, rfl⟩, rfl, rfl, by decide, rfl⟩

/-- Witness for `timeout_enforcement` at a concrete task-document entry that
omits the `timeout` key. -/
theorem timeout_enforcement_witness :
    (({ name := none, prompt := some "p", approval := none, timeout := none,
        description := none } : TaskData).prompt = some "p") ∧
    (({ name := none, prompt := some "p", approval := none, timeout := none,
        description := none } : TaskData).timeout = none) ∧
    (runnerEnforcedTimeout sampleTask = sampleTask.timeout ∧
     (∃ tk, loadTask "t" { name := none, prompt := some "p", approval := none,
                           timeout := none, description := none } =
              some tk ∧ tk.timeout = 120) ∧
     (runTaskResult sampleTask .timedOut).1 = false ∧
     agentStatus .timedOut = "timeout" ∧
     agentStatus .timedOut ≠ "completed" ∧
     agentEnforcedTimeout = 900) :=
  ⟨rfl, rfl,
   timeout_enforcement sampleTask "t"
     { name := none, prompt := some "p", approval := none, timeout := none,
       description := none } "p" rfl rfl⟩

/-- C6 counterexample: the agent swarm runs every agent with the hard-coded
timeout of 900 seconds, not a per-agent configured timeout and not the
claimed 120-second default for documents that omit it. -/
theorem agent_timeout_is_fixed_900 :
    agentEnforcedTimeout = 900 ∧ agentEnforcedTimeout ≠ 120 := by decide

/-- C7 (amended): on every exit path exactly one per-task log is written and
it always carries the task identity; but only the normal-exit path records
the prompt, timestamp, exit code and the full stdout/stderr transcript — the
timeout and error paths record only the identity and an error/status line. -/
theorem task_log_on_every_path (t : CopilotTask) (a : Agent)
    (now s e dur : String) (o : ProcOutcome) (code : Int) (out err : String) :
    ("Task: " ++ t.name) ∈ runnerTaskLog t now o ∧
    ("Agent: " ++ a.name ++ " (ID: " ++ toString a.agentId ++ ")")
      ∈ agentLog a s e dur o ∧
    ("Prompt: " ++ t.prompt) ∈ runnerTaskLog t now (.exited code out err) ∧
    ("Timestamp: " ++ now) ∈ runnerTaskLog t now (.exited code out err) ∧
    ("Exit Code: " ++ toString code) ∈ runnerTaskLog t now (.exited code out err) ∧
    out ∈ runnerTaskLog t now (.exited code out err) ∧
    err ∈ runnerTaskLog t now (.exited code out err) := by
  refine ⟨?_, ?_, ?_, ?_, ?_, ?_, ?_⟩ <;>
    cases o <;> simp [runnerTaskLog, agentLog]

/-- C7 counterexample: on the timeout path the per-task log written by
`TaskRunner.run_task` does not contain the prompt (for a task whose prompt is
non-empty), contradicting the claim that every exit path logs the prompt,
timestamps and transcript. -/
theorem timeout_log_lacks_prompt :
    ("Prompt: " ++ sampleTask.prompt) ∉ runnerTaskLog sampleTask "ts" .timedOut := by
  decide

/-- Looking a key up past a prefix of the dict that does not contain it. -/
theorem getResult_append_of_not_mem (m m' : ResultsMap) (k : String)
    (h : k ∉ rmKeys m) : getResult (m ++ m') k = getResult m' k := by
  induction m with
  | nil => rfl
  | cons p rest ih =>
      have hk : ¬ (p.1 = k) := fun he => h (by simp [rmKeys, he])
      have hrest : k ∉ rmKeys rest := fun hmem => h (by simp [rmKeys] at hmem ⊢; exact Or.inr hmem)
      simpa [getResult, hk] using ih hrest

/-- Walking a prefix of all-successful tasks, the sequential loop just
records each one and moves on, for any `stop_on_failure` setting. -/
theorem runSequentialAux_all_true (l : List (String × Bool)) :
    ∀ (m : ResultsMap) (rest : List (String × Bool)) (stop : Bool),
      (∀ p ∈ l, p.2 = true) →
      runSequentialAux m (l ++ rest) stop =
        runSequentialAux (l.foldl setResult m) rest stop := by
  induction l with
  | nil => intro m rest stop _; simp
  | cons t tl ih =>
      intro m rest stop h
      have ht : t.2 = true := h t (by simp)
      have hstep : runSequentialAux m ((t :: tl) ++ rest) stop =
          runSequentialAux (setResult m t) (tl ++ rest) stop := by
        simp [runSequentialAux, ht]
      rw [hstep, ih (setResult m t) rest stop (fun p hp => h p (by simp [hp]))]
      simp

/-- C3: in sequential mode with `stop_on_failure` enabled, the run halts
right after the first task whose result is not a success: the result dict is
exactly the successful prefix plus the failing task, the failing task has a
recorded failure, and every task after it in declared order has no recorded
result at all. -/
theorem sequential_stop_on_failure (pre post : List (String × Bool)) (nm : String)
    (hpre : ∀ p ∈ pre, p.2 = true)
    (hnd : (rmKeys (pre ++ (nm, false) :: post)).Nodup) :
    runSequential (pre ++ (nm, false) :: post) true = pre ++ [(nm, false)] ∧
    getResult (runSequential (pre ++ (nm, false) :: post) true) nm = some false ∧
    ∀ q ∈ post, getResult (runSequential (pre ++ (nm, false) :: post) true) q.1 = none := by
  have hkeys : rmKeys (pre ++ (nm, false) :: post) =
      rmKeys pre ++ nm :: rmKeys post := by simp [rmKeys]
  rw [hkeys] at hnd
  obtain ⟨hndpre, hndrest, hdisj⟩ := List.nodup_append.mp hnd
  have hnm_pre : nm ∉ rmKeys pre := fun hmem => hdisj hmem (by simp)
  have hfold : pre.foldl setResult [] = pre := by
    simpa using foldl_setResult_of_nodup pre [] (by simpa using hndpre)
  have hrun : runSequential (pre ++ (nm, false) :: post) true = pre ++ [(nm, false)] := by
    unfold runSequential
    rw [runSequentialAux_all_true pre [] ((nm, false) :: post) true hpre, hfold]
    simp [runSequentialAux, setResult_fresh pre (nm, false) hnm_pre]
  refine ⟨hrun, ?_, ?_⟩
  · rw [hrun, getResult_append_of_not_mem pre [(nm, false)] nm hnm_pre]
    simp [getResult]
  · intro q hq
    have hqpost : q.1 ∈ rmKeys post := List.mem_map_of_mem Prod.fst hq
    have hqpre : q.1 ∉ rmKeys pre := fun hmem => hdisj hmem (by simp [hqpost])
    have hqnm : ¬ (nm = q.1) := by
      intro he
      have : nm ∉ rmKeys post := (List.nodup_cons.mp hndrest).1
      exact this (he ▸ hqpost)
    rw [hrun, getResult_append_of_not_mem pre [(nm, false)] q.1 hqpre]
    simp [getResult, hqnm]

/-- Witness for `sequential_stop_on_failure`: concrete scenario B of the
spec — tasks T1 (succeeds), T2 (fails), T3 (succeeds) with
`stop_on_failure=true` give results `{T1: completed, T2: failed}` and no
entry for T3. -/
theorem sequential_stop_on_failure_witness :
    (∀ p ∈ [(("T1" : String), true)], p.2 = true) ∧
    (rmKeys ([(("T1" : String), true)] ++ ("T2", false) :: [("T3", true)])).Nodup ∧
    (runSequential ([(("T1" : String), true)] ++ ("T2", false) :: [("T3", true)]) true =
        [("T1", true)] ++ [("T2", false)] ∧
     getResult (runSequential ([(("T1" : String), true)] ++ ("T2", false) :: [("T3", true)]) true)
        "T2" = some false ∧
     ∀ q ∈ [(("T3" : String), true)],
       getResult (runSequential ([(("T1" : String), true)] ++ ("T2", false) :: [("T3", true)]) true)
          q.1 = none) :=
  ⟨by decide, by decide,
   sequential_stop_on_failure [("T1", true)] [("T3", true)] "T2" (by decide) (by decide)⟩

/-- C1 (amended): for every finalized run whose dispatched agents have
pairwise-distinct names, the persisted summary satisfies
`succeeded + failed == total`; without that restriction `succeeded + failed`
equals the number of dict entries, and agents sharing a name collapse into
one entry. -/
theorem summary_counts_of_distinct_names (agents order : List (String × Bool))
    (hperm : order.Perm agents) (hnd : (rmKeys agents).Nodup) :
    (generateSummary agents.length (collectResults order)).successful +
      (generateSummary agents.length (collectResults order)).failed =
      (generateSummary agents.length (collectResults order)).totalAgents := by
  have hndo : (rmKeys order).Nodup := ((hperm.map Prod.fst).nodup_iff).mpr hnd
  rw [collectResults_of_nodup order hndo]
  have hle : successCount order ≤ order.length := List.length_filter_le _ _
  have hlen : order.length = agents.length := hperm.length_eq
  simp only [generateSummary]
  omega

/-- Witness for `summary_counts_of_distinct_names` on a two-agent run whose
completion order differs from submission order. -/
theorem summary_counts_witness :
    ([(("b" : String), false), ("a", true)].Perm [("a", true), ("b", false)]) ∧
    (rmKeys [(("a" : String), true), ("b", false)]).Nodup ∧
    ((generateSummary ([(("a" : String), true), ("b", false)]).length
        (collectResults [("b", false), ("a", true)])).successful +
      (generateSummary ([(("a" : String), true), ("b", false)]).length
        (collectResults [("b", false), ("a", true)])).failed =
      (generateSummary ([(("a" : String), true), ("b", false)]).length
        (collectResults [("b", false), ("a", true)])).totalAgents) :=
  ⟨by decide, by decide,
   summary_counts_of_distinct_names [("a", true), ("b", false)]
     [("b", false), ("a", true)] (by decide) (by decide)⟩

/-- C1 counterexample: dispatching two agents that share the name "a" — the
first failing, the second succeeding — produces a persisted summary with
`succeeded + failed = 1` but `total = 2`. -/
theorem summary_counts_duplicate_names :
    (generateSummary ([(("a" : String), false), ("a", true)]).length
        (collectResults [("a", false), ("a", true)])).successful +
      (generateSummary ([(("a" : String), false), ("a", true)]).length
        (collectResults [("a", false), ("a", true)])).failed ≠
      (generateSummary ([(("a" : String), false), ("a", true)]).length
        (collectResults [("a", false), ("a", true)])).totalAgents := by decide

/-- C2 (amended): in parallel mode the result dict is keyed by task name
(which defaults to the task id); when the dispatched names are
pairwise-distinct it has exactly N entries whose keys are exactly the
dispatched names, and any two completion orders yield identical summary
counts.  Tasks sharing a name collapse into one entry and the counts can
then depend on completion order. -/
theorem parallel_results_of_distinct_names (tasks o1 o2 : List (String × Bool))
    (h1 : o1.Perm tasks) (h2 : o2.Perm tasks) (hnd : (rmKeys tasks).Nodup) :
    (collectResults o1).length = tasks.length ∧
    (rmKeys (collectResults o1)).Perm (rmKeys tasks) ∧
    generateSummary tasks.length (collectResults o1) =
      generateSummary tasks.length (collectResults o2) := by
  have hnd1 : (rmKeys o1).Nodup := ((h1.map Prod.fst).nodup_iff).mpr hnd
  have hnd2 : (rmKeys o2).Nodup := ((h2.map Prod.fst).nodup_iff).mpr hnd
  rw [collectResults_of_nodup o1 hnd1, collectResults_of_nodup o2 hnd2]
  refine ⟨h1.length_eq, h1.map Prod.fst, ?_⟩
  have hf : successCount o1 = successCount o2 := by
    have h12 := (h1.filter (fun p => p.2)).length_eq.trans
      ((h2.filter (fun p => p.2)).length_eq.symm)
    simpa [successCount] using h12
  simp [generateSummary, hf, h1.length_eq, h2.length_eq]

/-- Witness for `parallel_results_of_distinct_names` on two distinct-named
tasks collected in two different completion orders. -/
theorem parallel_results_witness :
    ([(("b" : String), false), ("a", true)].Perm [("a", true), ("b", false)]) ∧
    ([(("a" : String), true), ("b", false)].Perm [("a", true), ("b", false)]) ∧
    (rmKeys [(("a" : String), true), ("b", false)]).Nodup ∧
    ((collectResults [(("b" : String), false), ("a", true)]).length =
        ([(("a" : String), true), ("b", false)]).length ∧
     (rmKeys (collectResults [(("b" : String), false), ("a", true)])).Perm
        (rmKeys [(("a" : String), true), ("b", false)]) ∧
     generateSummary ([(("a" : String), true), ("b", false)]).length
        (collectResults [("b", false), ("a", true)]) =
      generateSummary ([(("a" : String), true), ("b", false)]).length
        (collectResults [("a", true), ("b", false)])) :=
  ⟨by decide, by decide, by decide,
   parallel_results_of_distinct_names [("a", true), ("b", false)]
     [("b", false), ("a", true)] [("a", true), ("b", false)]
     (by decide) (by decide) (by decide)⟩

/-- C2 counterexample: two dispatched tasks sharing the name "a" with
opposite outcomes give a result dict with 1 entry, not 2, and the two
possible completion orders produce different summary counts. -/
theorem parallel_results_duplicate_names :
    (collectResults [(("a" : String), false), ("a", true)]).length ≠
      ([(("a" : String), false), ("a", true)]).length ∧
    generateSummary 2 (collectResults [(("a" : String), false), ("a", true)]) ≠
      generateSummary 2 (collectResults [(("a" : String), true), ("a", false)]) := by
  decide

/-- C9 (amended): zero dispatched tasks yield an empty result dict, vacuous
overall success and process exit code 0; when the dispatched tasks have
pairwise-distinct names, `all(results.values())` is true iff every
dispatched task succeeded, and the process exit code is 0 iff it is true.
With duplicate names a later same-named success can overwrite a recorded
failure, so "every dispatched task completed" is not implied in general. -/
theorem overall_success_characterization (tasks order : List (String × Bool))
    (hperm : order.Perm tasks) (hnd : (rmKeys tasks).Nodup) :
    collectResults [] = ([] : ResultsMap) ∧
    overallSuccess [] = true ∧
    processExitCode [] = 0 ∧
    (overallSuccess (collectResults order) = true ↔ ∀ p ∈ tasks, p.2 = true) ∧
    (processExitCode (collectResults order) = 0 ↔
      overallSuccess (collectResults order) = true) := by
  have hndo : (rmKeys order).Nodup := ((hperm.map Prod.fst).nodup_iff).mpr hnd
  rw [collectResults_of_nodup order hndo]
  refine ⟨rfl, rfl, rfl, ?_, ?_⟩
  · rw [overallSuccess, List.all_eq_true]
    constructor
    · intro h p hp; exact h p (hperm.mem_iff.mpr hp)
    · intro h p hp; exact h p (hperm.mem_iff.mp hp)
  · cases hov : overallSuccess order <;> simp [processExitCode, hov]

/-- Witness for `overall_success_characterization` on one succeeding task. -/
theorem overall_success_witness :
    ([(("a" : String), true)].Perm [("a", true)]) ∧
    (rmKeys [(("a" : String), true)]).Nodup ∧
    (collectResults [] = ([] : ResultsMap) ∧
     overallSuccess [] = true ∧
     processExitCode [] = 0 ∧
     (overallSuccess (collectResults [(("a" : String), true)]) = true ↔
        ∀ p ∈ [(("a" : String), true)], p.2 = true) ∧
     (processExitCode (collectResults [(("a" : String), true)]) = 0 ↔
        overallSuccess (collectResults [(("a" : String), true)]) = true)) :=
  ⟨by decide, by decide,
   overall_success_characterization [("a", true)] [("a", true)]
     (by decide) (by decide)⟩

/-- C9 counterexample: two dispatched tasks share the name "a"; the failing
one completes first and is overwritten, so `all(results.values())` is true
even though a dispatched task did not complete. -/
theorem overall_success_duplicate_names :
    overallSuccess (collectResults [(("a" : String), false), ("a", true)]) = true ∧
    ¬ (∀ p ∈ [(("a" : String), false), ("a", true)], p.2 = true) := by decide

/-- C3 counterexample: sequential stop-on-failure over the reachable
duplicate-name run [x: ok, y: fail, x: ok] halts after y as claimed, but the
skipped third task's key "x" already holds a recorded result from the first
task — so "every task after it in declared order has no recorded result at
all" is false as stated. -/
theorem sequential_stop_duplicate_names :
    runSequential [(("x" : String), true), ("y", false), ("x", true)] true =
      [("x", true), ("y", false)] ∧
    getResult (runSequential [(("x" : String), true), ("y", false), ("x", true)] true)
      "x" = some true := by decide
